import Mathlib

/-!
Shallow embedding of the forge-testsuite harness (src/lib.rs): remapping
resolution for the solidity project, the deterministic EVM environment
profile, contract deployment and typed function invocation with gas and log
capture.  External collaborators (the solc project model, the forge
executor, the state backend, console log decoding) are modelled at their
interfaces as explicit parameters; the harness logic itself is translated
from the Rust source.  Diagnostic printing is modelled as an explicit
output trace of lines, and Rust panics (from `unwrap` and slice indexing)
are modelled as distinguished `panicked` outcomes.
-/

namespace ForgeTestsuite

/-- A path remapping, mirroring `ethers::solc::remappings::Remapping` with
fields `context`, `name` (the alias) and `path`. -/
structure Remapping where
  context : Option String
  name : String
  path : String
deriving DecidableEq

/-- Rust `str::split` on a single separator character: every occurrence of
the separator splits the string, empty segments included. -/
def splitChar (c : Char) : List Char → List (List Char)
  | [] => [[]]
  | x :: xs =>
    match splitChar c xs with
    | [] => [[]]
    | r :: rs => if x = c then [] :: r :: rs else (x :: r) :: rs

/-- `line.split("=")` from src/lib.rs line 67. -/
def splitOnEq (s : String) : List String :=
  (splitChar '=' s.data).map String.mk

/-- `PathBuf::join` followed by conversion to a string: an absolute right
side replaces the root, otherwise the two components are joined with a
slash (src/lib.rs lines 71-76). -/
def joinPath (root rel : String) : String :=
  match rel.data with
  | '/' :: _ => rel
  | _ => root ++ "/" ++ rel

/-- One line of remappings.txt (src/lib.rs lines 66-78): the line is split
on `=`, segment zero becomes the alias and segment one is joined onto the
project root.  A line with fewer than two segments makes the Rust indexing
`iter[1]` panic, modelled by `none`. -/
def parseLine (root : String) (line : String) : Option Remapping :=
  match splitOnEq line with
  | a :: b :: _ => some { context := none, name := a, path := joinPath root b }
  | _ => none

/-- Parsing of all lines of the file; `none` models the panic on the first
malformed line. -/
def parseLines (root : String) : List String → Option (List Remapping)
  | [] => some []
  | l :: ls =>
    match parseLine root l, parseLines root ls with
    | some m, some ms => some (m :: ms)
    | _, _ => none

/-- One `for_each` step (src/lib.rs lines 79-82): `retain` drops every
existing remapping whose alias equals the alias of the new entry, then the
new entry is pushed at the end. -/
def applyRemapping (acc : List Remapping) (m : Remapping) : List Remapping :=
  acc.filter (fun r => r.name != m.name) ++ [m]

/-- The whole `for_each` over the parsed file entries in file line order,
starting from the default remappings already present in
`paths.remappings`. -/
def resolveRemappings (defaults : List Remapping) : List Remapping → List Remapping
  | [] => defaults
  | m :: ms => resolveRemappings (applyRemapping defaults m) ms

/-- Outcome of the remapping block of the `PROJECT` initialiser: a missing
remappings.txt (`fs::read_to_string(..).unwrap()`) or a malformed line
panics, otherwise the resolved remapping list is produced.  The file is
given as an optional list of lines, `none` standing for a missing file. -/
inductive RemapResult where
  | ok (remappings : List Remapping)
  | panicked
deriving DecidableEq

/-- The remapping part of the `PROJECT` initialiser (src/lib.rs
lines 62-82). -/
def resolveRemappingFile (root : String) (defaults : List Remapping) :
    Option (List String) → RemapResult
  | none => RemapResult.panicked
  | some lines =>
    match parseLines root lines with
    | none => RemapResult.panicked
    | some parsed => RemapResult.ok (resolveRemappings defaults parsed)

/-- `foundry_common::DEV_CHAIN_ID`, the reserved development chain
identifier. -/
def DEV_CHAIN_ID : Nat := 1337

/-- `foundry_config::Config::DEFAULT_SENDER`, the well-known default test
address, as a natural number. -/
def DEFAULT_SENDER : Nat := 0x1804c8AB1F12E6bbf3894d4083f33e07309d1f38

/-- `usize::MAX` on the 64-bit targets the harness runs on. -/
def USIZE_MAX : Nat := 2 ^ 64 - 1

/-- `U256::MAX`. -/
def U256_MAX : Nat := 2 ^ 256 - 1

/-- The fields of `forge::executor::opts::Env` that src/lib.rs lines 88-96
sets explicitly; the remaining fields are filled by `Default::default()`
and are not touched by the claims. -/
structure Env where
  gas_limit : Nat
  chain_id : Option Nat
  tx_origin : Nat
  block_number : Nat
  block_timestamp : Nat
  code_size_limit : Option Nat
deriving DecidableEq

/-- The fields of `forge::executor::opts::EvmOpts` that src/lib.rs
lines 87-102 sets explicitly. -/
structure EvmOpts where
  env : Env
  sender : Nat
  initial_balance : Nat
  ffi : Bool
  memory_limit : Nat
deriving DecidableEq

/-- The `EVM_OPTS` static of src/lib.rs lines 87-102, shared by every
execution of a session. -/
def EVM_OPTS : EvmOpts where
  env :=
    { gas_limit := 18446744073709551615
      chain_id := some DEV_CHAIN_ID
      tx_origin := DEFAULT_SENDER
      block_number := 1
      block_timestamp := 1
      code_size_limit := some USIZE_MAX }
  sender := DEFAULT_SENDER
  initial_balance := U256_MAX
  ffi := true
  memory_limit := 2 ^ 24

/-- The code size ceiling is effectively disabled when a ceiling is set
that no representable bytecode size can exceed. -/
def codeSizeCeilingDisabled (o : EvmOpts) : Prop :=
  ∃ l, o.env.code_size_limit = some l ∧ USIZE_MAX ≤ l

/-- An ABI function entry: the name together with the declared input types,
which distinguish overloads sharing one name. -/
structure FunctionAbi where
  name : String
  inputs : List String
deriving DecidableEq

/-- The fields of the successful executor outcome (`CallResult`) that the
harness reads: the decoded result, the gas used and the emitted logs, with
the log type abstract. -/
structure CallResult (R L : Type) where
  result : R
  gas_used : Nat
  logs : List L
deriving DecidableEq

/-- The payload of `EvmError::Execution`: the decoded revert reason, the
gas used up to the revert point and the logs emitted before the revert. -/
structure ExecutionErr (L : Type) where
  reason : String
  gas_used : Nat
  logs : List L
deriving DecidableEq

/-- `foundry_evm::executor::EvmError`, as matched by the harness: the
structured execution revert, and the other VM or backend failures, which
the harness treats uniformly through its wildcard match arm. -/
inductive EvmError (L : Type) where
  | Execution (err : ExecutionErr L)
  | Abi (msg : String)
  | Eyre (msg : String)
deriving DecidableEq

/-- The parameters the harness passes to the test-execution entry point of
the executor (src/lib.rs lines 223-230). -/
structure Submission (A : Type) where
  sender : Nat
  to_addr : Nat
  func : FunctionAbi
  args : A
  value : Nat
deriving DecidableEq

/-- The `Contract` handle of src/lib.rs lines 207-212: the ABI function
table and sender of the wrapped `ContractRunner`, and the bound deployed
address. -/
structure Contract where
  functions : List (String × List FunctionAbi)
  sender : Nat
  address : Nat
deriving DecidableEq

/-- `contract.contract.functions.get(func)`: lookup of the overload list
for a function name in the ABI function table. -/
def functionsGet (fns : List (String × List FunctionAbi)) (k : String) :
    Option (List FunctionAbi) :=
  (fns.find? (fun p => p.1 == k)).map Prod.snd

/-- One line of the diagnostic output stream. -/
inductive OutLine where
  | gasUsed (func : String) (gas : Nat)
  | startLogs (func : String)
  | logLine (s : String)
  | endLogs (func : String)
deriving DecidableEq

/-- `print_logs` (src/lib.rs lines 243-250): one gas-used line, the start
marker, each console-decoded log line in order, then the end marker, all
keyed by the function name.  Console log decoding is an external
collaborator passed as `decode`. -/
def print_logs {L : Type} (decode : List L → List String) (func : String)
    (gas_used : Nat) (logs : List L) : List OutLine :=
  OutLine.gasUsed func gas_used :: OutLine.startLogs func ::
    ((decode logs).map OutLine.logLine ++ [OutLine.endLogs func])

/-- The result of one `call` invocation at the public interface: either the
process panicked (an `unwrap` failed), or a `Result` value was returned. -/
inductive CallStep (R L : Type) where
  | panicked
  | returned (r : Except (EvmError L) R)

/-- Full observable behaviour of one `call` invocation: the returned value
or panic, the submission handed to the executor (if reached), and the
diagnostic output trace. -/
structure CallOutput (A R L : Type) where
  res : CallStep R L
  submitted : Option (Submission A)
  out : List OutLine

/-- `Contract::call` (src/lib.rs lines 215-240): the overload list for the
name is looked up and unwrapped, its first element is unwrapped, the call
is submitted with zero value from the runner sender to the bound address,
the outcome is classified for diagnostic printing, and the decoded result
or the error is returned.  The executor is the external collaborator
`execute_test`. -/
def Contract.call {A R L : Type} (self : Contract) (func : String) (args : A)
    (execute_test : Submission A → Except (EvmError L) (CallResult R L))
    (decode : List L → List String) : CallOutput A R L :=
  match functionsGet self.functions func with
  | none => { res := CallStep.panicked, submitted := none, out := [] }
  | some [] => { res := CallStep.panicked, submitted := none, out := [] }
  | some (f :: _) =>
    let sub : Submission A :=
      { sender := self.sender, to_addr := self.address, func := f, args := args, value := 0 }
    let result := execute_test sub
    let out :=
      match result with
      | Except.ok c => print_logs decode func c.gas_used c.logs
      | Except.error (EvmError.Execution e) => print_logs decode func e.gas_used e.logs
      | Except.error _ => []
    { res := CallStep.returned (Except.map CallResult.result result),
      submitted := some sub, out := out }

/-- A remote state fork source, held by ownership and never cloned. -/
structure ForkSource where
  url : String
deriving DecidableEq

/-- A state backend: forked from a remote source, or fresh and empty. -/
inductive Backend where
  | forked (f : ForkSource)
  | empty
deriving DecidableEq

/-- Interface of the external `Backend::spawn` collaborator: a present fork
source yields a forked backend, an absent one a fresh empty backend. -/
def Backend.spawn : Option ForkSource → Backend
  | some f => Backend.forked f
  | none => Backend.empty

/-- An artifact identifier: the contract name together with its source
file, as in `ArtifactId`; `deploy` matches on the name only. -/
structure ContractId where
  name : String
  source : String
deriving DecidableEq

/-- The registry value for one contract: ABI function table, deployment
bytecode and linked library data. -/
structure ArtifactData where
  abi : List (String × List FunctionAbi)
  deploy_code : List Nat
  libs : List Nat
deriving DecidableEq

/-- The fields of `MultiContractRunner` that `deploy` reads or writes: the
compiled contract registry, the optional fork source and the sender. -/
structure MultiContractRunner where
  contracts : List (ContractId × ArtifactData)
  fork : Option ForkSource
  sender : Nat
deriving DecidableEq

/-- The fields of `forge::result::TestSetup` the harness touches: the
deployed address, which it destructures, and the optional failure reason of
the deployment or setup routine, which it discards together with the logs,
traces and labels. -/
structure TestSetup where
  address : Nat
  reason : Option String
deriving DecidableEq

/-- The result of one `deploy` invocation at the public interface: either
the process panicked (the registry lookup failed), or a handle was returned
together with the backend it runs on. -/
inductive DeployResult where
  | panicked
  | handle (db : Backend) (c : Contract)
deriving DecidableEq

/-- `Runner::deploy` (src/lib.rs lines 166-203): the registry is searched
for the first artifact with the requested name and the result is unwrapped;
the fork source is taken out of the runner (leaving `none`) and handed to
`Backend::spawn`; the contract runner is set up, running the deployment and
the declared setup routine through the external collaborator `setup`, whose
outcome is destructured for the address only; a handle is returned.  The
function returns the updated runner state and the deploy outcome. -/
def Runner.deploy (st : MultiContractRunner) (contract_name : String)
    (setup : ContractId → ArtifactData → Backend → TestSetup) :
    MultiContractRunner × DeployResult :=
  match st.contracts.find? (fun p => p.1.name == contract_name) with
  | none => (st, DeployResult.panicked)
  | some (cid, art) =>
    let db := Backend.spawn st.fork
    let st2 : MultiContractRunner := { st with fork := none }
    let s := setup cid art db
    (st2, DeployResult.handle db
      { functions := art.abi, sender := st.sender, address := s.address })

/-! Concrete sample data used by the witness and counterexample
theorems. -/

def fSample : FunctionAbi := { name := "f", inputs := ["uint256"] }

def fSample2 : FunctionAbi := { name := "f", inputs := [] }

def handleSample : Contract :=
  { functions := [("f", [fSample, fSample2])], sender := 3, address := 4 }

def handleEmpty : Contract := { functions := [], sender := 3, address := 4 }

def execOk : Submission Nat → Except (EvmError Nat) (CallResult Nat Nat) :=
  fun _ => Except.ok { result := 0, gas_used := 9, logs := [1, 2] }

def execRevert : Submission Nat → Except (EvmError Nat) (CallResult Nat Nat) :=
  fun _ =>
    Except.error (EvmError.Execution { reason := "nope", gas_used := 21000, logs := [7] })

def execFault : Submission Nat → Except (EvmError Nat) (CallResult Nat Nat) :=
  fun _ => Except.error (EvmError.Eyre "backend failure")

def decodeSample : List Nat → List String := fun _ => ["L1", "L2"]

def cidSample : ContractId := { name := "C", source := "src/C.sol" }

def artSample : ArtifactData :=
  { abi := [("f", [fSample])], deploy_code := [0, 1], libs := [] }

def setupOk : ContractId → ArtifactData → Backend → TestSetup :=
  fun _ _ _ => { address := 7, reason := none }

def setupFail : ContractId → ArtifactData → Backend → TestSetup :=
  fun _ _ _ => { address := 0, reason := some "setup failed" }

def stSample : MultiContractRunner :=
  { contracts := [(cidSample, artSample)], fork := some { url := "http" }, sender := 3 }

def stNoFork : MultiContractRunner :=
  { contracts := [(cidSample, artSample)], fork := none, sender := 3 }

/-! Helper lemmas for the remapping resolution invariant. -/

theorem applyRemapping_names_nodup (acc : List Remapping) (m : Remapping)
    (h : (acc.map Remapping.name).Nodup) :
    ((applyRemapping acc m).map Remapping.name).Nodup := by
  have hsub :
      ((acc.filter (fun r => r.name != m.name)).map Remapping.name).Sublist
        (acc.map Remapping.name) :=
    (List.filter_sublist acc).map Remapping.name
  have h1 : ((acc.filter (fun r => r.name != m.name)).map Remapping.name).Nodup :=
    h.sublist hsub
  have h2 : m.name ∉ (acc.filter (fun r => r.name != m.name)).map Remapping.name := by
    intro hmem
    rcases List.mem_map.mp hmem with ⟨r, hr, hname⟩
    have hcond := (List.mem_filter.mp hr).2
    rw [hname] at hcond
    simp at hcond
  unfold applyRemapping
  rw [List.map_append]
  refine List.Nodup.append h1 ?_ ?_
  · simp
  · intro a ha hb
    simp at hb
    subst hb
    exact h2 ha

theorem resolveRemappings_names_nodup (parsed : List Remapping) :
    ∀ defaults : List Remapping, (defaults.map Remapping.name).Nodup →
      ((resolveRemappings defaults parsed).map Remapping.name).Nodup := by
  induction parsed with
  | nil => intro defaults h; exact h
  | cons m ms ih =>
    intro defaults h
    exact ih (applyRemapping defaults m) (applyRemapping_names_nodup defaults m h)

/-- C1: after remapping resolution the resolved set keeps at most one entry
per alias, provided the defaults themselves are alias-unique: every parsed
file entry evicts any default or earlier entry with the same alias before
being appended.  Concretely, a default for alias `a` at `/x` together with
the file line `a=y` resolves to exactly the single entry for `a`, with the
path resolved against the project root. -/
theorem C1_remapping_resolution (defaults parsed : List Remapping)
    (h : (defaults.map Remapping.name).Nodup) :
    ((resolveRemappings defaults parsed).map Remapping.name).Nodup ∧
    resolveRemappingFile "root" [{ context := none, name := "a", path := "/x" }]
        (some ["a=y"]) =
      RemapResult.ok [{ context := none, name := "a", path := "root/y" }] :=
  ⟨resolveRemappings_names_nodup parsed defaults h, by decide⟩

/-- Witness for C1 at concrete inputs. -/
theorem C1_remapping_resolution_witness :
    ((resolveRemappings [] []).map Remapping.name).Nodup ∧
    resolveRemappingFile "root" [{ context := none, name := "a", path := "/x" }]
        (some ["a=y"]) =
      RemapResult.ok [{ context := none, name := "a", path := "root/y" }] :=
  C1_remapping_resolution [] [] (by decide)

/-- C2: the environment profile fixes sender and transaction origin to the
default test address, the initial balance to the U256 maximum, the gas
ceiling to the u64 maximum, the chain id to the development identifier, the
block number and timestamp to one, an effectively disabled code size
ceiling, a memory ceiling of 2 ^ 24 bytes, and permits external process
invocation. -/
theorem C2_environment_profile :
    EVM_OPTS.sender = DEFAULT_SENDER ∧
    EVM_OPTS.env.tx_origin = DEFAULT_SENDER ∧
    EVM_OPTS.initial_balance = 2 ^ 256 - 1 ∧
    EVM_OPTS.env.gas_limit = 2 ^ 64 - 1 ∧
    EVM_OPTS.env.chain_id = some DEV_CHAIN_ID ∧
    EVM_OPTS.env.block_number = 1 ∧
    EVM_OPTS.env.block_timestamp = 1 ∧
    codeSizeCeilingDisabled EVM_OPTS ∧
    EVM_OPTS.memory_limit = 2 ^ 24 ∧
    EVM_OPTS.ffi = true :=
  ⟨rfl, rfl, rfl, by decide, rfl, rfl, rfl, ⟨USIZE_MAX, rfl, Nat.le_refl _⟩, rfl, rfl⟩

/-- C3: a call whose execution reverts returns the structured execution
error, carrying the decoded reason, the gas used up to the revert point and
the logs emitted before the revert, as a recoverable error value rather
than a panic. -/
theorem C3_revert_surfaced {A R L : Type} (self : Contract) (func : String)
    (args : A)
    (execute_test : Submission A → Except (EvmError L) (CallResult R L))
    (decode : List L → List String) (f : FunctionAbi) (fs : List FunctionAbi)
    (e : ExecutionErr L)
    (h : functionsGet self.functions func = some (f :: fs))
    (he : execute_test
        { sender := self.sender, to_addr := self.address, func := f,
          args := args, value := 0 } =
      Except.error (EvmError.Execution e)) :
    (Contract.call self func args execute_test decode).res =
      CallStep.returned (Except.error (EvmError.Execution e)) := by
  simp [Contract.call, h, he, Except.map]

/-- Witness for C3: a concrete reverting call. -/
theorem C3_revert_surfaced_witness :
    (Contract.call handleSample "f" 0 execRevert decodeSample).res =
      CallStep.returned (Except.error (EvmError.Execution
        { reason := "nope", gas_used := 21000, logs := [7] })) :=
  C3_revert_surfaced handleSample "f" 0 execRevert decodeSample fSample [fSample2]
    { reason := "nope", gas_used := 21000, logs := [7] } (by decide) rfl

/-- C4 counterexample: a call whose outcome is a VM or backend error other
than an execution revert renders nothing at all to the diagnostic stream,
so the rendering side effect does not happen for every outcome
classification. -/
theorem C4_diagnostics_counterexample :
    (Contract.call handleSample "f" 0 execFault decodeSample).out = [] := by
  decide

/-- C4 amended: for a successfully resolved function name, the diagnostic
output of a call is exactly one gas-used line, the start marker, the
console-decoded log lines in emission order and the end marker, all keyed
by the function name, when the outcome is a success or an execution revert;
an outcome that is any other VM or backend error renders nothing. -/
theorem C4_diagnostics_amended {A R L : Type} (self : Contract) (func : String)
    (args : A)
    (execute_test : Submission A → Except (EvmError L) (CallResult R L))
    (decode : List L → List String) (f : FunctionAbi) (fs : List FunctionAbi)
    (h : functionsGet self.functions func = some (f :: fs)) :
    (Contract.call self func args execute_test decode).out =
      match execute_test
          { sender := self.sender, to_addr := self.address, func := f,
            args := args, value := 0 } with
      | Except.ok c =>
        OutLine.gasUsed func c.gas_used :: OutLine.startLogs func ::
          ((decode c.logs).map OutLine.logLine ++ [OutLine.endLogs func])
      | Except.error (EvmError.Execution e) =>
        OutLine.gasUsed func e.gas_used :: OutLine.startLogs func ::
          ((decode e.logs).map OutLine.logLine ++ [OutLine.endLogs func])
      | Except.error (EvmError.Abi _) => []
      | Except.error (EvmError.Eyre _) => [] := by
  simp only [Contract.call, h]
  cases execute_test
      { sender := self.sender, to_addr := self.address, func := f,
        args := args, value := 0 } with
  | ok c => simp [print_logs]
  | error e => cases e <;> simp [print_logs]

/-- Witness for C4 amended: a concrete successful call and its rendered
diagnostic lines. -/
theorem C4_diagnostics_witness :
    (Contract.call handleSample "f" 0 execOk decodeSample).out =
      [OutLine.gasUsed "f" 9, OutLine.startLogs "f", OutLine.logLine "L1",
        OutLine.logLine "L2", OutLine.endLogs "f"] :=
  (C4_diagnostics_amended handleSample "f" 0 execOk decodeSample fSample [fSample2]
    (by decide)).trans (by decide)

/-- C5 counterexample: deploying a contract name absent from the registry
panics through the unwrapped lookup; no ContractNotFound error value is
produced, the outcome is the panic with the runner state unchanged. -/
theorem C5_unknown_contract_counterexample :
    Runner.deploy stSample "DoesNotExist" setupOk = (stSample, DeployResult.panicked) := by
  decide

/-- C5 amended: when the contract name is absent from the registry, deploy
reaches the panic of the unwrapped lookup, and the runner state, fork
source included, is unchanged at that point. -/
theorem C5_unknown_contract_amended (st : MultiContractRunner) (name : String)
    (setup : ContractId → ArtifactData → Backend → TestSetup)
    (h : st.contracts.find? (fun p => p.1.name == name) = none) :
    Runner.deploy st name setup = (st, DeployResult.panicked) := by
  simp [Runner.deploy, h]

/-- Witness for C5 amended. -/
theorem C5_unknown_contract_witness :
    Runner.deploy stNoFork "Missing" setupOk = (stNoFork, DeployResult.panicked) :=
  C5_unknown_contract_amended stNoFork "Missing" setupOk (by decide)

/-- C6: the fork source is consumed at most once per runner: the first
deploy that reaches backend acquisition takes it, spawning a forked
backend, and leaves the runner without a fork source, so a subsequent
deploy on the same runner spawns a fresh empty backend. -/
theorem C6_fork_consumed_once (st : MultiContractRunner) (name name2 : String)
    (setup setup2 : ContractId → ArtifactData → Backend → TestSetup)
    (cid : ContractId) (art : ArtifactData) (cid2 : ContractId) (art2 : ArtifactData)
    (f : ForkSource) (hf : st.fork = some f)
    (h : st.contracts.find? (fun p => p.1.name == name) = some (cid, art))
    (h2 : (Runner.deploy st name setup).1.contracts.find?
        (fun p => p.1.name == name2) = some (cid2, art2)) :
    (Runner.deploy st name setup).1.fork = none ∧
    (Runner.deploy st name setup).2 =
      DeployResult.handle (Backend.forked f)
        { functions := art.abi, sender := st.sender,
          address := (setup cid art (Backend.forked f)).address } ∧
    (Runner.deploy (Runner.deploy st name setup).1 name2 setup2).2 =
      DeployResult.handle Backend.empty
        { functions := art2.abi, sender := st.sender,
          address := (setup2 cid2 art2 Backend.empty).address } := by
  have h1 : (Runner.deploy st name setup).1 = { st with fork := none } := by
    simp [Runner.deploy, h]
  refine ⟨by rw [h1], ?_, ?_⟩
  · simp [Runner.deploy, h, hf, Backend.spawn]
  · rw [h1] at h2 ⊢
    simp [Runner.deploy, h2, Backend.spawn]

/-- Witness for C6: a concrete runner with a fork source, deployed from
twice. -/
theorem C6_fork_consumed_once_witness :
    (Runner.deploy stSample "C" setupOk).1.fork = none ∧
    (Runner.deploy stSample "C" setupOk).2 =
      DeployResult.handle (Backend.forked { url := "http" })
        { functions := artSample.abi, sender := stSample.sender,
          address := (setupOk cidSample artSample
            (Backend.forked { url := "http" })).address } ∧
    (Runner.deploy (Runner.deploy stSample "C" setupOk).1 "C" setupOk).2 =
      DeployResult.handle Backend.empty
        { functions := artSample.abi, sender := stSample.sender,
          address := (setupOk cidSample artSample Backend.empty).address } :=
  C6_fork_consumed_once stSample "C" "C" setupOk setupOk cidSample artSample
    cidSample artSample { url := "http" } rfl (by decide) (by decide)

/-- C7 counterexample: the setup routine reports a failure, yet deploy
still returns a contract handle built from the reported address; the
failure indication is discarded rather than propagated. -/
theorem C7_setup_counterexample :
    (setupFail cidSample artSample Backend.empty).reason = some "setup failed" ∧
    (Runner.deploy stNoFork "C" setupFail).2 =
      DeployResult.handle Backend.empty
        { functions := artSample.abi, sender := 3, address := 0 } :=
  ⟨rfl, by decide⟩

/-- C7 amended: deploy invokes the deployment and setup routine on the
spawned backend and returns a handle carrying the address the setup
reports, for every possible setup outcome: the failure indication is
discarded and deploy never aborts because of it. -/
theorem C7_setup_amended (st : MultiContractRunner) (name : String)
    (setup : ContractId → ArtifactData → Backend → TestSetup)
    (cid : ContractId) (art : ArtifactData)
    (h : st.contracts.find? (fun p => p.1.name == name) = some (cid, art)) :
    (Runner.deploy st name setup).2 =
      DeployResult.handle (Backend.spawn st.fork)
        { functions := art.abi, sender := st.sender,
          address := (setup cid art (Backend.spawn st.fork)).address } := by
  simp [Runner.deploy, h]

/-- Witness for C7 amended. -/
theorem C7_setup_witness :
    (Runner.deploy stNoFork "C" setupOk).2 =
      DeployResult.handle (Backend.spawn stNoFork.fork)
        { functions := artSample.abi, sender := stNoFork.sender,
          address := (setupOk cidSample artSample (Backend.spawn stNoFork.fork)).address } :=
  C7_setup_amended stNoFork "C" setupOk cidSample artSample (by decide)

/-- C8 counterexample: on the line a=b=c the code resolves only the segment
between the first and the second separator, not the entire right side, and
a missing alias file panics instead of yielding any error value. -/
theorem C8_parse_counterexample :
    parseLine "root" "a=b=c" =
      some { context := none, name := "a", path := "root/b" } ∧
    joinPath "root" "b=c" = "root/b=c" ∧
    ("root/b" : String) ≠ "root/b=c" ∧
    resolveRemappingFile "root" [] none = RemapResult.panicked :=
  ⟨by decide, by decide, by decide, rfl⟩

/-- C8 amended: each line is split on every separator and only the first
two segments are used, the alias being segment zero and the path segment
one joined onto the project root, with any remainder dropped; a missing
file or a line without a separator panics rather than producing an error
value, and the existence of resolved paths is never checked. -/
theorem C8_parse_amended (root a b : String) (rest : List String)
    (line lineNoEq : String)
    (hsplit : splitOnEq line = a :: b :: rest)
    (hno : splitOnEq lineNoEq = [lineNoEq]) :
    parseLine root line = some { context := none, name := a, path := joinPath root b } ∧
    parseLine root lineNoEq = none ∧
    resolveRemappingFile root [] none = RemapResult.panicked ∧
    resolveRemappingFile root [] (some [lineNoEq]) = RemapResult.panicked := by
  refine ⟨?_, ?_, rfl, ?_⟩
  · simp [parseLine, hsplit]
  · simp [parseLine, hno]
  · simp [resolveRemappingFile, parseLines, parseLine, hno]

/-- Witness for C8 amended. -/
theorem C8_parse_witness :
    parseLine "r" "a=b=c" =
      some { context := none, name := "a", path := joinPath "r" "b" } ∧
    parseLine "r" "noeq" = none ∧
    resolveRemappingFile "r" [] none = RemapResult.panicked ∧
    resolveRemappingFile "r" [] (some ["noeq"]) = RemapResult.panicked :=
  C8_parse_amended "r" "a" "b" ["c"] "a=b=c" "noeq" (by decide) (by decide)

/-- C9: when several ABI functions share the requested name, the call
submits the first declared overload without any uniqueness validation,
with zero value transferred, the profile sender as caller and the bound
deployed address as callee. -/
theorem C9_first_overload {A R L : Type} (self : Contract) (func : String)
    (args : A)
    (execute_test : Submission A → Except (EvmError L) (CallResult R L))
    (decode : List L → List String) (f1 f2 : FunctionAbi) (fs : List FunctionAbi)
    (h : functionsGet self.functions func = some (f1 :: f2 :: fs)) :
    (Contract.call self func args execute_test decode).submitted =
      some { sender := self.sender, to_addr := self.address, func := f1,
             args := args, value := 0 } := by
  simp [Contract.call, h]

/-- Witness for C9: a concrete handle with two overloads of the name f. -/
theorem C9_first_overload_witness :
    (Contract.call handleSample "f" 0 execOk decodeSample).submitted =
      some { sender := 3, to_addr := 4, func := fSample, args := 0, value := 0 } :=
  C9_first_overload handleSample "f" 0 execOk decodeSample fSample fSample2 []
    (by decide)

/-- C10: a function name absent from the bound ABI makes the call panic
rather than return any error value, and every error value that call does
return originates from the executor after a successful name lookup. -/
theorem C10_no_error_path {A R L : Type} (self : Contract) (func : String)
    (args : A)
    (execute_test : Submission A → Except (EvmError L) (CallResult R L))
    (decode : List L → List String) :
    (functionsGet self.functions func = none →
      (Contract.call self func args execute_test decode).res = CallStep.panicked) ∧
    (∀ e : EvmError L,
      (Contract.call self func args execute_test decode).res =
        CallStep.returned (Except.error e) →
      ∃ f fs, functionsGet self.functions func = some (f :: fs) ∧
        execute_test { sender := self.sender, to_addr := self.address, func := f,
                       args := args, value := 0 } = Except.error e) := by
  constructor
  · intro h
    simp [Contract.call, h]
  · intro e he
    rcases hl : functionsGet self.functions func with _ | fl
    · simp [Contract.call, hl] at he
    · cases fl with
      | nil => simp [Contract.call, hl] at he
      | cons f fs =>
        simp [Contract.call, hl] at he
        rcases hres : execute_test { sender := self.sender, to_addr := self.address,
                                     func := f, args := args, value := 0 } with e0 | c
        · rw [hres] at he
          simp [Except.map] at he
          exact ⟨f, fs, rfl, by rw [hres, he]⟩
        · rw [hres] at he
          simp [Except.map] at he

/-- Witness for C10: a concrete call with an absent function name. -/
theorem C10_no_error_path_witness :
    (Contract.call handleEmpty "missing" 0 execOk decodeSample).res =
      CallStep.panicked :=
  (C10_no_error_path handleEmpty "missing" 0 execOk decodeSample).1 rfl

end ForgeTestsuite
